import Mathlib

/-!
# Verification of the AI-Game client core

A shallow embedding of the scene-DSL construction, the client state
machine, and the asset-loading utilities of the AI-Game repository
(`client/src/utils/api.ts`, `client/src/utils/assetLoader.ts`, the
Phaser scene classes, and `client/src/index.ts`), together with proofs
of the specification's claims about them.

Records of the TypeScript source become Lean structures; the
`Record<string, Scene>` mapping becomes an association list in
insertion order; optional fields become `Option`; JavaScript string
truthiness (`if (x)` on a possibly-absent string) is modelled
explicitly.
-/

/-- `NPC` record from `api.ts` (simplified API structure). -/
structure NPC where
  name : String
  trait : String
deriving DecidableEq, Repr

/-- `GameImages` record from `api.ts`: the three optional image URLs. -/
structure GameImages where
  avatar : Option String
  background : Option String
  npc : Option String
deriving DecidableEq, Repr

/-- `GameData` record from `api.ts`: the narrative fields returned by the
backend, plus the optional images record. -/
structure GameData where
  setting : String
  protagonist_role : String
  objective : String
  twist : String
  npc : NPC
  hook : String
  quest_offer : String
  choice_a : String
  choice_b : String
  challenge_intro : String
  climax : String
  ending_good : String
  ending_bad : String
  epilogue : String
  images : Option GameImages
deriving DecidableEq, Repr

/-- `DialogueOption` from `api.ts`. -/
structure DialogueOption where
  text : String
  next_scene : String
deriving DecidableEq, Repr

/-- `NPCLegacy` from `api.ts`. -/
structure NPCLegacy where
  name : String
  description : String
  portrait_prompt : String
deriving DecidableEq, Repr

/-- `AvatarScene` from `api.ts` (fields of `SceneBase` inlined; the
`scene_type: avatar` discriminant becomes the constructor tag of `Scene`). -/
structure AvatarScene where
  scene_id : String
  title : String
  description : String
  avatar_prompt : String
  next_scene : String
deriving DecidableEq, Repr

/-- `DialogueScene` from `api.ts`. -/
structure DialogueScene where
  scene_id : String
  title : String
  description : String
  background_prompt : String
  npc : Option NPCLegacy
  dialogue_text : String
  options : List DialogueOption
deriving DecidableEq, Repr

/-- `ObstacleRunScene` from `api.ts`. -/
structure ObstacleRunScene where
  scene_id : String
  title : String
  description : String
  background_prompt : String
  obstacle_prompt : String
  difficulty : Nat
  success_scene : String
  failure_scene : String
deriving DecidableEq, Repr

/-- `ConclusionScene` from `api.ts`. -/
structure ConclusionScene where
  scene_id : String
  title : String
  description : String
  background_prompt : String
  conclusion_text : String
  is_good_ending : Bool
  next_scene : Option String
deriving DecidableEq, Repr

/-- The `Scene` tagged union from `api.ts`; the string discriminant
`scene_type` becomes the constructor tag. -/
inductive Scene where
  | avatar (s : AvatarScene)
  | dialogue (s : DialogueScene)
  | obstacle_run (s : ObstacleRunScene)
  | conclusion (s : ConclusionScene)
deriving DecidableEq, Repr

/-- The `scene_type` discriminant string carried by every `Scene` record. -/
def Scene.scene_type : Scene → String
  | .avatar _ => "avatar"
  | .dialogue _ => "dialogue"
  | .obstacle_run _ => "obstacle_run"
  | .conclusion _ => "conclusion"

/-- `SceneDSL` from `api.ts`. The `Record<string, Scene>` becomes an
association list in insertion order (all keys assigned by the source are
distinct, so lookup agrees with the JavaScript record). -/
structure SceneDSL where
  scenes : List (String × Scene)
  initial_scene : String
  game_title : String
  game_description : String
deriving DecidableEq, Repr

/-- `LegacyGameResponse` from `api.ts`. The source attaches the original
game data with `(legacyResponse as any).game_data = gameData`; scenes read
it back with `(this.gameData as any).game_data`, which may be absent, so it
is an `Option` here. -/
structure LegacyGameResponse where
  scene_dsl : SceneDSL
  prompt : String
  game_data : Option GameData
deriving DecidableEq, Repr

/-- JavaScript record lookup `scenes[key]` on the association list. -/
def recordGet (m : List (String × Scene)) (k : String) : Option Scene :=
  (m.find? (fun p => p.1 == k)).map (·.2)

/-- The key set of the scenes record, in insertion order. -/
def recordKeys (m : List (String × Scene)) : List String :=
  m.map (·.1)

/-- `convertToSceneStructure` from `api.ts`: builds the fixed six-scene
DSL from the simplified game data, and preserves the original game data
on the result. -/
def convertToSceneStructure (gameData : GameData) (prompt : String) :
    LegacyGameResponse :=
  let avatarScene : AvatarScene :=
    { scene_id := "avatar_creation"
      title := "Create Your Hero"
      description := "You are a " ++ gameData.protagonist_role ++ " in " ++ gameData.setting
      avatar_prompt := "A " ++ gameData.protagonist_role ++ " character in " ++
        gameData.setting ++ ", pixel art style, 8-color palette, 2px outline, flat shading"
      next_scene := "quest_start" }
  let questScene : DialogueScene :=
    { scene_id := "quest_start"
      title := "The Quest Begins"
      description := gameData.hook
      background_prompt := gameData.setting ++
        " background scene, pixel art style, 8-color palette, 2px outline, flat shading"
      npc := some
        { name := gameData.npc.name
          description := "A " ++ gameData.npc.trait ++ " character"
          portrait_prompt := gameData.npc.name ++ ", a " ++ gameData.npc.trait ++
            " character, pixel art portrait, 8-color palette, 2px outline, flat shading" }
      dialogue_text := gameData.quest_offer
      options :=
        [ { text := gameData.choice_a, next_scene := "challenge_a" },
          { text := gameData.choice_b, next_scene := "challenge_b" } ] }
  let challengeScene : ObstacleRunScene :=
    { scene_id := "challenge_a"
      title := "The Challenge"
      description := gameData.challenge_intro
      background_prompt := gameData.setting ++
        " challenge area, pixel art style, 8-color palette, 2px outline, flat shading"
      obstacle_prompt := "Obstacles in " ++ gameData.setting ++
        ", pixel art style, 8-color palette, 2px outline, flat shading"
      difficulty := 3
      success_scene := "good_ending"
      failure_scene := "bad_ending" }
  let challengeSceneB : ObstacleRunScene :=
    { scene_id := "challenge_b"
      title := "The Alternative Path"
      description := gameData.challenge_intro
      background_prompt := gameData.setting ++
        " alternative path, pixel art style, 8-color palette, 2px outline, flat shading"
      obstacle_prompt := "Different obstacles in " ++ gameData.setting ++
        ", pixel art style, 8-color palette, 2px outline, flat shading"
      difficulty := 2
      success_scene := "good_ending"
      failure_scene := "bad_ending" }
  let goodEnding : ConclusionScene :=
    { scene_id := "good_ending"
      title := "Victory!"
      description := gameData.ending_good
      background_prompt := "Victory scene in " ++ gameData.setting ++
        ", pixel art style, 8-color palette, 2px outline, flat shading"
      conclusion_text := gameData.climax ++ "\n\n" ++ gameData.ending_good ++
        "\n\n" ++ gameData.epilogue
      is_good_ending := true
      next_scene := none }
  let badEnding : ConclusionScene :=
    { scene_id := "bad_ending"
      title := "Defeat"
      description := gameData.ending_bad
      background_prompt := "Defeat scene in " ++ gameData.setting ++
        ", pixel art style, 8-color palette, 2px outline, flat shading"
      conclusion_text := gameData.climax ++ "\n\n" ++ gameData.ending_bad
      is_good_ending := false
      next_scene := none }
  { scene_dsl :=
      { scenes :=
          [ ("avatar_creation", .avatar avatarScene),
            ("quest_start", .dialogue questScene),
            ("challenge_a", .obstacle_run challengeScene),
            ("challenge_b", .obstacle_run challengeSceneB),
            ("good_ending", .conclusion goodEnding),
            ("bad_ending", .conclusion badEnding) ]
        initial_scene := "avatar_creation"
        game_title := gameData.protagonist_role ++ " of " ++ gameData.setting
        game_description := gameData.objective ++ " - " ++ gameData.hook }
    prompt := prompt
    game_data := some gameData }

/-- C2: for every game data and prompt, the scenes mapping built by
`convertToSceneStructure` has exactly the six keys `avatar_creation`,
`quest_start`, `challenge_a`, `challenge_b`, `good_ending`, `bad_ending`
(with no duplicates), and `initial_scene` is `avatar_creation`, which is a
key of that mapping — so exactly one initial scene id exists in the
mapping. -/
theorem c2_scene_keys_exact (gameData : GameData) (prompt : String) :
    recordKeys (convertToSceneStructure gameData prompt).scene_dsl.scenes =
      ["avatar_creation", "quest_start", "challenge_a", "challenge_b",
       "good_ending", "bad_ending"] ∧
    (recordKeys (convertToSceneStructure gameData prompt).scene_dsl.scenes).Nodup ∧
    (convertToSceneStructure gameData prompt).scene_dsl.initial_scene =
      "avatar_creation" ∧
    (convertToSceneStructure gameData prompt).scene_dsl.initial_scene ∈
      recordKeys (convertToSceneStructure gameData prompt).scene_dsl.scenes := by
  have hk : recordKeys (convertToSceneStructure gameData prompt).scene_dsl.scenes =
      ["avatar_creation", "quest_start", "challenge_a", "challenge_b",
       "good_ending", "bad_ending"] := rfl
  have hi : (convertToSceneStructure gameData prompt).scene_dsl.initial_scene =
      "avatar_creation" := rfl
  refine ⟨hk, ?_, hi, ?_⟩
  · rw [hk]; decide
  · rw [hi, hk]; decide

/-- The transition references carried by a scene: the avatar scene's
`next_scene`, each dialogue option's `next_scene`, the obstacle-run
scene's `success_scene` and `failure_scene`, and a conclusion scene's
optional `next_scene` (never set by `convertToSceneStructure`). -/
def sceneRefs : Scene → List String
  | .avatar s => [s.next_scene]
  | .dialogue s => s.options.map (·.next_scene)
  | .obstacle_run s => [s.success_scene, s.failure_scene]
  | .conclusion s => s.next_scene.toList

/-- The transition references leaving the scene stored at key `k`. -/
def sceneRefsAt (dsl : SceneDSL) (k : String) : List String :=
  match recordGet dsl.scenes k with
  | some s => sceneRefs s
  | none => []

/-- The scene ids a playthrough can reach: the initial scene, plus
anything reachable by following a transition reference of a scene present
in the mapping. -/
inductive ReachableScene (dsl : SceneDSL) : String → Prop where
  | initial : ReachableScene dsl dsl.initial_scene
  | step (a b : String) (s : Scene) : ReachableScene dsl a →
      recordGet dsl.scenes a = some s → b ∈ sceneRefs s → ReachableScene dsl b

/-- A successful record lookup means the key is present. -/
theorem recordGet_mem_keys (m : List (String × Scene)) (k : String) (s : Scene)
    (h : recordGet m k = some s) : k ∈ recordKeys m := by
  unfold recordGet at h
  cases hf : m.find? (fun p => p.1 == k) with
  | none => rw [hf] at h; simp at h
  | some pr =>
    have hp : pr.1 = k := by
      have := List.find?_some hf
      simpa using this
    have hm : pr ∈ m := List.mem_of_find?_eq_some hf
    exact List.mem_map.mpr ⟨pr, hm, hp⟩

/-- Every transition reference in the constructed DSL resolves: the scenes
record built by `convertToSceneStructure` is closed under `sceneRefs`. -/
theorem convert_refs_closed (gameData : GameData) (prompt : String)
    (a : String) (s : Scene)
    (h : recordGet (convertToSceneStructure gameData prompt).scene_dsl.scenes a = some s) :
    ∀ b ∈ sceneRefs s,
      ∃ s2, recordGet (convertToSceneStructure gameData prompt).scene_dsl.scenes b = some s2 := by
  intro b hb
  have hmem := recordGet_mem_keys _ _ _ h
  have hcases : a = "avatar_creation" ∨ a = "quest_start" ∨ a = "challenge_a" ∨
      a = "challenge_b" ∨ a = "good_ending" ∨ a = "bad_ending" := by
    simpa [recordKeys, convertToSceneStructure] using hmem
  rcases hcases with rfl | rfl | rfl | rfl | rfl | rfl <;>
    · simp [convertToSceneStructure, recordGet] at h
      subst h
      simp [sceneRefs] at hb
      all_goals rcases hb with rfl | rfl <;> exact ⟨_, rfl⟩

/-- C1: in the DSL built by `convertToSceneStructure`, every transition
reference resolves to a key of the scenes mapping; the avatar scene leads
to `quest_start`, the quest dialogue's options lead to `challenge_a` and
`challenge_b`, both challenge scenes lead to `good_ending` on success and
`bad_ending` on failure, and every scene id reachable from the initial
scene by following transition references is present in the mapping. -/
theorem c1_no_dangling_references (gameData : GameData) (prompt : String) :
    (∀ k s, recordGet (convertToSceneStructure gameData prompt).scene_dsl.scenes k = some s →
      ∀ b ∈ sceneRefs s, b ∈ recordKeys (convertToSceneStructure gameData prompt).scene_dsl.scenes) ∧
    sceneRefsAt (convertToSceneStructure gameData prompt).scene_dsl "avatar_creation" =
      ["quest_start"] ∧
    sceneRefsAt (convertToSceneStructure gameData prompt).scene_dsl "quest_start" =
      ["challenge_a", "challenge_b"] ∧
    sceneRefsAt (convertToSceneStructure gameData prompt).scene_dsl "challenge_a" =
      ["good_ending", "bad_ending"] ∧
    sceneRefsAt (convertToSceneStructure gameData prompt).scene_dsl "challenge_b" =
      ["good_ending", "bad_ending"] ∧
    ∀ x, ReachableScene (convertToSceneStructure gameData prompt).scene_dsl x →
      ∃ s, recordGet (convertToSceneStructure gameData prompt).scene_dsl.scenes x = some s := by
  refine ⟨?_, rfl, rfl, rfl, rfl, ?_⟩
  · intro k s h b hb
    obtain ⟨s2, h2⟩ := convert_refs_closed gameData prompt k s h b hb
    exact recordGet_mem_keys _ _ _ h2
  · intro x hx
    induction hx with
    | initial => exact ⟨_, rfl⟩
    | step a b s _ hlook hb _ => exact convert_refs_closed gameData prompt a s hlook b hb

/-- A concrete game data value used to instantiate theorems. -/
def sampleGameData : GameData :=
  { setting := "a haunted forest"
    protagonist_role := "brave knight"
    objective := "lift the curse"
    twist := "the ghost is a friend"
    npc := { name := "Eldrin", trait := "wise" }
    hook := "A scream echoes through the trees"
    quest_offer := "Will you help me?"
    choice_a := "Take the dark path"
    choice_b := "Take the river path"
    challenge_intro := "The forest tests you"
    climax := "You face the ancient ghost"
    ending_good := "The curse is lifted"
    ending_bad := "The forest claims you"
    epilogue := "Peace returns"
    images := some
      { avatar := some "assets/avatar_1.png"
        background := some "assets/background_1.png"
        npc := some "assets/npc_1.png" } }

/-- What `ConclusionScene.renderConclusionScene` (ConclusionScene.ts) puts
on screen: the title, whether the avatar image is drawn, and the conclusion
text (absent when no preserved game data is available). -/
structure ConclusionRenderResult where
  title : String
  showsAvatar : Bool
  showsBackgroundImage : Bool
  conclusionText : Option String
deriving DecidableEq, Repr

/-- `ConclusionScene.renderConclusionScene` from ConclusionScene.ts.
`currentSceneId` and the preserved game data come from `init`; the two
booleans model `this.textures.exists('avatar')` / `('background')`. The
conclusion text is recomputed from the preserved game data exactly as in
the source (not read from the scene record). -/
def renderConclusionScene (currentSceneId : String)
    (preservedGameData : Option GameData)
    (avatarTextureLoaded backgroundTextureLoaded : Bool) :
    ConclusionRenderResult :=
  let isGoodEnding := currentSceneId == "good_ending"
  { title := if isGoodEnding then "Victory!" else "Defeat"
    showsAvatar := isGoodEnding && avatarTextureLoaded
    showsBackgroundImage := backgroundTextureLoaded
    conclusionText := preservedGameData.map fun gd =>
      if isGoodEnding then
        gd.climax ++ "\n\n" ++ gd.ending_good ++ "\n\n" ++ gd.epilogue
      else
        gd.climax ++ "\n\n" ++ gd.ending_bad }

/-- C5: the `good_ending` scene's `conclusion_text` is climax, good ending
and epilogue separated by blank lines, the `bad_ending` scene's is climax
and bad ending; rendering `good_ending` with the avatar texture loaded
displays exactly that text plus the avatar image; and the avatar is shown
only when the rendered scene is `good_ending`. -/
theorem c5_conclusion_text_and_avatar (gameData : GameData) (prompt : String) :
    (∃ c, recordGet (convertToSceneStructure gameData prompt).scene_dsl.scenes
        "good_ending" = some (.conclusion c) ∧
      c.conclusion_text = gameData.climax ++ "\n\n" ++ gameData.ending_good ++
        "\n\n" ++ gameData.epilogue ∧
      ∀ bt, (renderConclusionScene "good_ending" (some gameData) true bt).conclusionText =
          some c.conclusion_text ∧
        (renderConclusionScene "good_ending" (some gameData) true bt).showsAvatar = true) ∧
    (∃ c, recordGet (convertToSceneStructure gameData prompt).scene_dsl.scenes
        "bad_ending" = some (.conclusion c) ∧
      c.conclusion_text = gameData.climax ++ "\n\n" ++ gameData.ending_bad ∧
      ∀ av bt, (renderConclusionScene "bad_ending" (some gameData) av bt).conclusionText =
          some c.conclusion_text) ∧
    ∀ sid g av bt, (renderConclusionScene sid g av bt).showsAvatar = true →
      sid = "good_ending" := by
  refine ⟨⟨_, rfl, rfl, fun bt => ⟨rfl, rfl⟩⟩, ⟨_, rfl, rfl, fun av bt => rfl⟩, ?_⟩
  intro sid g av bt h
  simp [renderConclusionScene] at h
  exact h.1

/-- Witness for `c5_conclusion_text_and_avatar` at a concrete input. -/
theorem c5_conclusion_witness : ("good_ending" : String) = "good_ending" :=
  (c5_conclusion_text_and_avatar sampleGameData "p").2.2
    "good_ending" (some sampleGameData) true true rfl

/-- A fragment of JavaScript's dynamic values, enough to state what the
`isScene` type guard from `api.ts` tests: `null`, booleans, numbers,
strings, arrays and objects (an object value is always truthy). -/
inductive JVal where
  | null
  | jbool (b : Bool)
  | jnum (n : Int)
  | jstr (s : String)
  | jarr (elems : List JVal)
  | jobj (fields : List (String × JVal))

/-- JavaScript property lookup `obj[key]` on an object's field list. -/
def lookupField (fields : List (String × JVal)) (k : String) : Option JVal :=
  (fields.find? (fun p => p.1 == k)).map (·.2)

/-- The string comparisons of `isScene`: the looked-up `scene_type`
property is one of the four scene-type strings (false when absent or not
a string). -/
def isSceneTypeVal : Option JVal → Bool
  | some (.jstr t) =>
      t == "avatar" || t == "dialogue" || t == "obstacle_run" || t == "conclusion"
  | _ => false

/-- `isScene` from `api.ts`: the value is a truthy object, has a
`scene_type` property, and that property is one of the four scene-type
strings. -/
def isScene : JVal → Bool
  | .jobj fields => isSceneTypeVal (lookupField fields "scene_type")
  | _ => false

/-- The JavaScript object a `DialogueOption` record denotes. -/
def DialogueOption.toJVal (o : DialogueOption) : JVal :=
  .jobj [("text", .jstr o.text), ("next_scene", .jstr o.next_scene)]

/-- The JavaScript object an `NPCLegacy` record denotes. -/
def NPCLegacy.toJVal (n : NPCLegacy) : JVal :=
  .jobj [("name", .jstr n.name), ("description", .jstr n.description),
         ("portrait_prompt", .jstr n.portrait_prompt)]

/-- The JavaScript object a `Scene` record denotes: all fields of the
record, with the `scene_type` discriminant as a string property and
optional fields present only when set. -/
def Scene.toJVal : Scene → JVal
  | .avatar s => .jobj
      [("scene_id", .jstr s.scene_id), ("scene_type", .jstr "avatar"),
       ("title", .jstr s.title), ("description", .jstr s.description),
       ("avatar_prompt", .jstr s.avatar_prompt), ("next_scene", .jstr s.next_scene)]
  | .dialogue s => .jobj
      ([("scene_id", .jstr s.scene_id), ("scene_type", .jstr "dialogue"),
        ("title", .jstr s.title), ("description", .jstr s.description),
        ("background_prompt", .jstr s.background_prompt)] ++
       (match s.npc with
        | some n => [("npc", n.toJVal)]
        | none => []) ++
       [("dialogue_text", .jstr s.dialogue_text),
        ("options", .jarr (s.options.map DialogueOption.toJVal))])
  | .obstacle_run s => .jobj
      [("scene_id", .jstr s.scene_id), ("scene_type", .jstr "obstacle_run"),
       ("title", .jstr s.title), ("description", .jstr s.description),
       ("background_prompt", .jstr s.background_prompt),
       ("obstacle_prompt", .jstr s.obstacle_prompt),
       ("difficulty", .jnum s.difficulty),
       ("success_scene", .jstr s.success_scene),
       ("failure_scene", .jstr s.failure_scene)]
  | .conclusion s => .jobj
      ([("scene_id", .jstr s.scene_id), ("scene_type", .jstr "conclusion"),
        ("title", .jstr s.title), ("description", .jstr s.description),
        ("background_prompt", .jstr s.background_prompt),
        ("conclusion_text", .jstr s.conclusion_text),
        ("is_good_ending", .jbool s.is_good_ending)] ++
       (match s.next_scene with
        | some n => [("next_scene", .jstr n)]
        | none => []))

/-- C9: `isScene` returns true exactly on objects whose `scene_type`
property is one of `avatar`, `dialogue`, `obstacle_run`, `conclusion`;
and every scene record in the mapping produced by
`convertToSceneStructure` satisfies `isScene`. -/
theorem c9_isScene_spec (gameData : GameData) (prompt : String) :
    (∀ v, isScene v = true ↔
      ∃ fields, v = JVal.jobj fields ∧
        ∃ t, lookupField fields "scene_type" = some (.jstr t) ∧
          (t = "avatar" ∨ t = "dialogue" ∨ t = "obstacle_run" ∨ t = "conclusion")) ∧
    ∀ k s, (k, s) ∈ (convertToSceneStructure gameData prompt).scene_dsl.scenes →
      isScene (Scene.toJVal s) = true := by
  constructor
  · intro v
    constructor
    · intro h
      cases v with
      | jobj fields =>
        refine ⟨fields, rfl, ?_⟩
        simp only [isScene] at h
        cases hl : lookupField fields "scene_type" with
        | none => rw [hl] at h; simp [isSceneTypeVal] at h
        | some jv =>
          rw [hl] at h
          cases jv with
          | jstr t =>
            refine ⟨t, rfl, ?_⟩
            have h2 := h
            simp [isSceneTypeVal] at h2
            tauto
          | null => simp [isSceneTypeVal] at h
          | jbool b => simp [isSceneTypeVal] at h
          | jnum n => simp [isSceneTypeVal] at h
          | jarr e => simp [isSceneTypeVal] at h
          | jobj f => simp [isSceneTypeVal] at h
      | null => simp [isScene] at h
      | jbool b => simp [isScene] at h
      | jnum n => simp [isScene] at h
      | jstr s => simp [isScene] at h
      | jarr e => simp [isScene] at h
    · rintro ⟨fields, rfl, t, hl, ht⟩
      simp only [isScene]
      rw [hl]
      rcases ht with rfl | rfl | rfl | rfl <;> rfl
  · intro k s hmem
    simp [convertToSceneStructure] at hmem
    rcases hmem with ⟨rfl, rfl⟩ | ⟨rfl, rfl⟩ | ⟨rfl, rfl⟩ | ⟨rfl, rfl⟩ |
      ⟨rfl, rfl⟩ | ⟨rfl, rfl⟩ <;> rfl

/-- Witness for `c9_isScene_spec` at a concrete input. -/
theorem c9_isScene_witness :
    isScene (Scene.toJVal (Scene.avatar
      { scene_id := "avatar_creation"
        title := "Create Your Hero"
        description := "You are a brave knight in a haunted forest"
        avatar_prompt := "A brave knight character in a haunted forest, pixel art style, 8-color palette, 2px outline, flat shading"
        next_scene := "quest_start" })) = true :=
  (c9_isScene_spec sampleGameData "p").2 "avatar_creation" _
    (by simp [convertToSceneStructure, sampleGameData])

/-- `AssetType` enum from `assetLoader.ts`. -/
inductive AssetType where
  | image
  | audio
  | spritesheet
deriving DecidableEq, Repr

/-- A queueing call made by a scene's `preload`: either
`AssetLoader.queueAssetWithURL` (direct URL) or `AssetLoader.queueAsset`
(prompt-based generation via `generateImage`). -/
inductive QueueAction where
  | withURL (key : String) (ty : AssetType) (url : String)
  | withPrompt (key : String) (ty : AssetType) (generationPrompt : String)
deriving DecidableEq, Repr

/-- The JavaScript pattern `if (field) queueAssetWithURL(key, IMAGE, field)`
on an optional string field: queues exactly when the field is present and
truthy (the empty string is falsy). -/
def optQueueWithURL (key : String) (field : Option String) : List QueueAction :=
  match field with
  | some url => if url == "" then [] else [.withURL key .image url]
  | none => []

/-- `DynamicScene.preload` from DynamicScene.ts: with game data and a
scene id present, queue the avatar, background and npc images by URL from
the preserved game data's images record; queue nothing otherwise. -/
def dynamicScenePreload (gameData : Option LegacyGameResponse)
    (currentSceneId : String) : List QueueAction :=
  match gameData with
  | none => []
  | some gd =>
    if currentSceneId == "" then []
    else
      match gd.game_data.bind (·.images) with
      | none => []
      | some imgs =>
          optQueueWithURL "avatar" imgs.avatar ++
          optQueueWithURL "background" imgs.background ++
          optQueueWithURL "npc" imgs.npc

/-- `ConclusionScene.preload` from ConclusionScene.ts: queue the background
and (for victory scenes) the avatar image by URL from the preserved game
data's images record. -/
def conclusionScenePreload (gameData : Option LegacyGameResponse)
    (currentSceneId : String) : List QueueAction :=
  match gameData with
  | none => []
  | some gd =>
    if currentSceneId == "" then []
    else
      match gd.game_data.bind (·.images) with
      | none => []
      | some imgs =>
          optQueueWithURL "background" imgs.background ++
          optQueueWithURL "avatar" imgs.avatar

/-- `ObstacleRunScene.preload` from ObstacleRunScene.ts: for an
obstacle-run scene, queue the background and obstacle (reusing the avatar)
images by URL when the preserved images record exists, and fall back to
prompt-based generation (`queueAsset`) only when it does not. -/
def obstacleRunScenePreload (gameData : Option LegacyGameResponse)
    (currentSceneId : String) : List QueueAction :=
  match gameData with
  | none => []
  | some gd =>
    if currentSceneId == "" then []
    else
      match recordGet gd.scene_dsl.scenes currentSceneId with
      | some (.obstacle_run s) =>
        (match gd.game_data.bind (·.images) with
         | some imgs =>
             optQueueWithURL ("bg_" ++ currentSceneId) imgs.background ++
             optQueueWithURL ("obstacle_" ++ currentSceneId) imgs.avatar
         | none =>
             [.withPrompt ("bg_" ++ currentSceneId) .image s.background_prompt,
              .withPrompt ("obstacle_" ++ currentSceneId) .image s.obstacle_prompt])
      | _ => []

/-- `BootScene.queueAssetsForScene` from Boot.ts: queue the avatar,
background and npc images by URL from the preserved game data's images
record; skip asset loading when it is absent. -/
def bootQueueAssetsForScene (gameData : LegacyGameResponse) : List QueueAction :=
  match gameData.game_data.bind (·.images) with
  | none => []
  | some imgs =>
      optQueueWithURL "avatar" imgs.avatar ++
      optQueueWithURL "background" imgs.background ++
      optQueueWithURL "npc" imgs.npc

/-- An action queued by `optQueueWithURL` is a `withURL` action whose URL
is the field's value. -/
theorem mem_optQueueWithURL (key : String) (field : Option String)
    (act : QueueAction) (h : act ∈ optQueueWithURL key field) :
    ∃ u, act = QueueAction.withURL key AssetType.image u ∧ field = some u := by
  cases field with
  | none => simp [optQueueWithURL] at h
  | some url =>
    simp only [optQueueWithURL] at h
    split at h
    · simp at h
    · simp at h
      exact ⟨url, h, rfl⟩

/-- C6: when the preserved game data carries an images record, every
queueing call made by any scene's preload (DynamicScene, ConclusionScene,
ObstacleRunScene, BootScene) is a `queueAssetWithURL` call whose URL is
one of the record's avatar, background or npc URLs; `queueAsset`
(prompt-based image generation) is never invoked. -/
theorem c6_preload_urls_only (gd : LegacyGameResponse) (g : GameData)
    (imgs : GameImages) (h1 : gd.game_data = some g) (h2 : g.images = some imgs) :
    ∀ sid act,
      (act ∈ dynamicScenePreload (some gd) sid ∨
       act ∈ conclusionScenePreload (some gd) sid ∨
       act ∈ obstacleRunScenePreload (some gd) sid ∨
       act ∈ bootQueueAssetsForScene gd) →
      ∃ k u, act = QueueAction.withURL k AssetType.image u ∧
        (imgs.avatar = some u ∨ imgs.background = some u ∨ imgs.npc = some u) := by
  have himgs : gd.game_data.bind (·.images) = some imgs := by
    rw [h1]; simpa using h2
  intro sid act hact
  rcases hact with hm | hm | hm | hm
  · simp only [dynamicScenePreload, himgs] at hm
    split at hm
    · simp at hm
    · rcases List.mem_append.mp hm with hm2 | hm2
      · rcases List.mem_append.mp hm2 with hm3 | hm3
        · obtain ⟨u, rfl, hu⟩ := mem_optQueueWithURL _ _ _ hm3
          exact ⟨_, u, rfl, Or.inl hu⟩
        · obtain ⟨u, rfl, hu⟩ := mem_optQueueWithURL _ _ _ hm3
          exact ⟨_, u, rfl, Or.inr (Or.inl hu)⟩
      · obtain ⟨u, rfl, hu⟩ := mem_optQueueWithURL _ _ _ hm2
        exact ⟨_, u, rfl, Or.inr (Or.inr hu)⟩
  · simp only [conclusionScenePreload, himgs] at hm
    split at hm
    · simp at hm
    · rcases List.mem_append.mp hm with hm2 | hm2
      · obtain ⟨u, rfl, hu⟩ := mem_optQueueWithURL _ _ _ hm2
        exact ⟨_, u, rfl, Or.inr (Or.inl hu)⟩
      · obtain ⟨u, rfl, hu⟩ := mem_optQueueWithURL _ _ _ hm2
        exact ⟨_, u, rfl, Or.inl hu⟩
  · simp only [obstacleRunScenePreload, himgs] at hm
    split at hm
    · simp at hm
    · split at hm
      · rcases List.mem_append.mp hm with hm2 | hm2
        · obtain ⟨u, rfl, hu⟩ := mem_optQueueWithURL _ _ _ hm2
          exact ⟨_, u, rfl, Or.inr (Or.inl hu)⟩
        · obtain ⟨u, rfl, hu⟩ := mem_optQueueWithURL _ _ _ hm2
          exact ⟨_, u, rfl, Or.inl hu⟩
      · simp at hm
  · simp only [bootQueueAssetsForScene, himgs] at hm
    rcases List.mem_append.mp hm with hm2 | hm2
    · rcases List.mem_append.mp hm2 with hm3 | hm3
      · obtain ⟨u, rfl, hu⟩ := mem_optQueueWithURL _ _ _ hm3
        exact ⟨_, u, rfl, Or.inl hu⟩
      · obtain ⟨u, rfl, hu⟩ := mem_optQueueWithURL _ _ _ hm3
        exact ⟨_, u, rfl, Or.inr (Or.inl hu)⟩
    · obtain ⟨u, rfl, hu⟩ := mem_optQueueWithURL _ _ _ hm2
      exact ⟨_, u, rfl, Or.inr (Or.inr hu)⟩

/-- Witness for `c6_preload_urls_only` at a concrete input. -/
theorem c6_preload_witness :
    ∃ k u, QueueAction.withURL "avatar" AssetType.image "assets/avatar_1.png" =
        QueueAction.withURL k AssetType.image u ∧
      ((some "assets/avatar_1.png" : Option String) = some u ∨
       (some "assets/background_1.png" : Option String) = some u ∨
       (some "assets/npc_1.png" : Option String) = some u) :=
  c6_preload_urls_only (convertToSceneStructure sampleGameData "p") sampleGameData
    { avatar := some "assets/avatar_1.png"
      background := some "assets/background_1.png"
      npc := some "assets/npc_1.png" }
    rfl rfl "avatar_creation" (QueueAction.withURL "avatar" AssetType.image "assets/avatar_1.png")
    (Or.inl (by simp [dynamicScenePreload, convertToSceneStructure, sampleGameData, optQueueWithURL]))

/-- `AssetInfo` from `assetLoader.ts` (the Phaser `frameConfig` rendering
option, which no verified operation reads, is not modelled). -/
structure AssetInfo where
  key : String
  ty : AssetType
  url : Option String
  generationPrompt : Option String
  loaded : Bool
deriving DecidableEq, Repr

/-- `AssetLoader.getProgress` from `assetLoader.ts`: loaded count over
total queued count, and 1 when nothing is queued. The `assets` map is
represented by its list of entries. -/
def getProgress (assets : List AssetInfo) : ℚ :=
  let total := assets.length
  let loaded := (assets.filter (·.loaded)).length
  if total > 0 then (loaded : ℚ) / (total : ℚ) else 1

/-- C10: `getProgress` always lies in [0, 1]; it is the loaded count
divided by the total queued count when assets are queued, and exactly 1
when none are. -/
theorem c10_progress_bounds (assets : List AssetInfo) :
    0 ≤ getProgress assets ∧ getProgress assets ≤ 1 ∧
    (0 < assets.length →
      getProgress assets =
        ((assets.filter (·.loaded)).length : ℚ) / (assets.length : ℚ)) ∧
    (assets.length = 0 → getProgress assets = 1) := by
  rcases Nat.eq_zero_or_pos assets.length with h0 | hpos
  · have h1 : getProgress assets = 1 := by simp [getProgress, h0]
    exact ⟨by rw [h1]; norm_num, by rw [h1], fun hc => absurd h0 (by omega),
      fun _ => h1⟩
  · have he : getProgress assets =
        ((assets.filter (·.loaded)).length : ℚ) / (assets.length : ℚ) := by
      simp [getProgress, hpos]
    refine ⟨?_, ?_, fun _ => he, fun hc => absurd hc (by omega)⟩
    · rw [he]; positivity
    · rw [he]
      rw [div_le_one (by exact_mod_cast hpos)]
      exact_mod_cast List.length_filter_le _ _

/-- A concrete asset entry used to instantiate theorems. -/
def sampleAssetInfo : AssetInfo :=
  { key := "avatar"
    ty := AssetType.image
    url := some "assets/avatar_1.png"
    generationPrompt := none
    loaded := true }

/-- Witness for `c10_progress_bounds` at concrete inputs. -/
theorem c10_progress_witness :
    getProgress [] = 1 ∧
    getProgress [sampleAssetInfo] =
      ((List.filter (·.loaded) [sampleAssetInfo]).length : ℚ) /
        (([sampleAssetInfo] : List AssetInfo).length : ℚ) :=
  ⟨(c10_progress_bounds []).2.2.2 rfl,
   (c10_progress_bounds [sampleAssetInfo]).2.2.1 (by decide)⟩

/-- JavaScript `Map.set`: replace the value at the key in place, or append
a new entry, preserving insertion order. -/
def mapSet (m : List (String × String)) (k v : String) : List (String × String) :=
  match m with
  | [] => [(k, v)]
  | (k2, v2) :: rest => if k2 == k then (k, v) :: rest else (k2, v2) :: mapSet rest k v

/-- JavaScript `Map.get` on the entry list. -/
def mapGet (m : List (String × String)) (k : String) : Option String :=
  (m.find? (fun p => p.1 == k)).map (·.2)

/-- `Map.get` after `Map.set` at the same key yields the written value. -/
theorem mapGet_mapSet (m : List (String × String)) (k v : String) :
    mapGet (mapSet m k v) k = some v := by
  induction m with
  | nil => simp [mapSet, mapGet]
  | cons hd tl ih =>
    obtain ⟨k2, v2⟩ := hd
    simp only [mapSet]
    split
    · simp [mapGet]
    · rename_i hne
      have hb : (k2 == k) = false := by simpa using hne
      simpa [mapGet, List.find?, hb] using ih

/-- One hexadecimal digit (uppercase), as produced by JavaScript's
percent-encoding. -/
def hexDigit (n : Nat) : Char :=
  Char.ofNat (if n < 10 then 48 + n else 55 + n)

/-- Percent-encoding of one byte: `%XX`. -/
def percentByte (b : Nat) : String :=
  "%" ++ String.singleton (hexDigit (b / 16)) ++ String.singleton (hexDigit (b % 16))

/-- The UTF-8 bytes of one character. -/
def utf8Bytes (c : Char) : List Nat :=
  let n := c.toNat
  if n < 128 then [n]
  else if n < 2048 then [192 + n / 64, 128 + n % 64]
  else if n < 65536 then [224 + n / 4096, 128 + (n / 64) % 64, 128 + n % 64]
  else [240 + n / 262144, 128 + (n / 4096) % 64, 128 + (n / 64) % 64, 128 + n % 64]

/-- The characters JavaScript's `encodeURIComponent` leaves unescaped:
ASCII alphanumerics and `- _ . ! ~ * ' ( )`. -/
def isUnreservedChar (c : Char) : Bool :=
  (65 ≤ c.toNat && c.toNat ≤ 90) || (97 ≤ c.toNat && c.toNat ≤ 122) ||
  (48 ≤ c.toNat && c.toNat ≤ 57) ||
  c.toNat ∈ [45, 95, 46, 33, 126, 42, 39, 40, 41]

/-- JavaScript's `encodeURIComponent`: keep unreserved characters,
percent-encode the UTF-8 bytes of everything else. -/
def encodeURIComponent (s : String) : String :=
  s.data.foldl
    (fun acc c =>
      acc ++ (if isUnreservedChar c then String.singleton c
              else String.join ((utf8Bytes c).map percentByte)))
    ""

/-- `generateImage` from `api.ts`: always returns the placeholder URL for
the prompt (no failure path). -/
def generateImage (prompt : String) : String :=
  "https://via.placeholder.com/400x400?text=" ++ encodeURIComponent prompt

/-- `AssetLoader.generateAsset` from `assetLoader.ts`: the outcome of the
awaited `generateImage` call is passed in as an `Except`; on success the
generated URL is stored under the key, on a thrown error the placeholder
fallback URL is stored instead — the exception is not propagated. -/
def generateAsset (generatedAssets : List (String × String)) (key : String)
    (result : Except String String) : List (String × String) :=
  match result with
  | .ok url => mapSet generatedAssets key url
  | .error _ =>
      mapSet generatedAssets key
        ("https://via.placeholder.com/400x400?text=Failed+to+generate+" ++ key)

/-- C8: after `generateAsset` completes — whether the image-generation
call returned its URL or threw — the `generatedAssets` map holds a
non-empty URL for the key, so every prompt-queued asset has a URL to
load. -/
theorem c8_generate_asset_total (m : List (String × String)) (key generationPrompt : String)
    (result : Except String String)
    (h : result = .ok (generateImage generationPrompt) ∨ ∃ e, result = .error e) :
    ∃ url, mapGet (generateAsset m key result) key = some url ∧ url ≠ "" := by
  rcases h with rfl | ⟨e, rfl⟩
  · refine ⟨generateImage generationPrompt, mapGet_mapSet m key _, ?_⟩
    intro hempty
    have hlen := congrArg String.length hempty
    rw [generateImage, String.length_append] at hlen
    have hpos : 0 < ("https://via.placeholder.com/400x400?text=" : String).length := by
      decide
    have hz : ("" : String).length = 0 := rfl
    omega
  · refine ⟨_, mapGet_mapSet m key _, ?_⟩
    intro hempty
    have hlen := congrArg String.length hempty
    rw [String.length_append] at hlen
    have hpos :
        0 < ("https://via.placeholder.com/400x400?text=Failed+to+generate+" : String).length := by
      decide
    have hz : ("" : String).length = 0 := rfl
    omega

/-- Witness for `c8_generate_asset_total` at a concrete input. -/
theorem c8_generate_asset_witness :
    ∃ url, mapGet (generateAsset [] "avatar" (Except.error "network down"))
      "avatar" = some url ∧ url ≠ "" :=
  c8_generate_asset_total [] "avatar" "a knight" (Except.error "network down")
    (Or.inr ⟨"network down", rfl⟩)

/-- `GameResponse` from `api.ts`: the backend's reply to
`POST /api/generateGame`. -/
structure GameResponse where
  game_data : GameData
  prompt : String
deriving DecidableEq, Repr

/-- `generateGame` from `api.ts`: the outcome of the awaited
`axios.post` call is passed in as an `Except`; on success the simplified
structure is converted, on any failure a fresh error with the fixed
generic message is thrown. -/
def generateGame (backendResult : Except String GameResponse) :
    Except String LegacyGameResponse :=
  match backendResult with
  | .ok resp => .ok (convertToSceneStructure resp.game_data resp.prompt)
  | .error _ => .error "Failed to generate game. Please try again."

/-- The DOM/localStorage state touched by `startGameGeneration` in
`index.ts`. -/
structure UIState where
  errorText : String
  errorVisible : Bool
  promptVisible : Bool
  loadingVisible : Bool
  storedGameData : Option LegacyGameResponse
deriving DecidableEq, Repr

/-- `startGameGeneration` from `index.ts`: on success the converted game
data is stored in localStorage and the loading screen is hidden; on a
thrown error the generic failure message is shown, the loading screen is
hidden and the prompt screen is redisplayed, with nothing stored. -/
def startGameGeneration (st : UIState)
    (backendResult : Except String GameResponse) : UIState :=
  match generateGame backendResult with
  | .ok gameData =>
      { st with storedGameData := some gameData, loadingVisible := false }
  | .error _ =>
      { st with
          errorText := "Failed to generate game. Please try again."
          errorVisible := true
          loadingVisible := false
          promptVisible := true }

/-- C4: whenever the backend call fails, `generateGame` throws the fixed
generic message and returns no game data, and `startGameGeneration`
surfaces that generic message, redisplays the prompt screen and stores no
partial game data. -/
theorem c4_generate_game_failure (st : UIState) (e : String) :
    generateGame (.error e) = .error "Failed to generate game. Please try again." ∧
    (startGameGeneration st (.error e)).storedGameData = st.storedGameData ∧
    (startGameGeneration st (.error e)).errorText =
      "Failed to generate game. Please try again." ∧
    (startGameGeneration st (.error e)).errorVisible = true ∧
    (startGameGeneration st (.error e)).promptVisible = true ∧
    (startGameGeneration st (.error e)).loadingVisible = false :=
  ⟨rfl, rfl, rfl, rfl, rfl, rfl⟩

/-- The client-side state the restart flow touches: the active Phaser
scene key, the localStorage copy of the game data, the `TitleScene`'s held
game data, and whether the DOM prompt screen is shown. -/
structure ClientState where
  currentScene : String
  localGameData : Option LegacyGameResponse
  titleGameData : Option LegacyGameResponse
  promptVisible : Bool
deriving DecidableEq, Repr

/-- `TitleScene.init` from Title.ts: keep the game data passed with
`scene.start`, else reload it from the localStorage copy. -/
def titleSceneInit (st : ClientState) (passed : Option LegacyGameResponse) :
    ClientState :=
  match passed with
  | some g => { st with titleGameData := some g }
  | none =>
    match st.localGameData with
    | some g => { st with titleGameData := some g }
    | none => st

/-- The pointerdown handler of `ConclusionScene.createRestartButton`
(the terminal scenes' Play Again button): `this.scene.start('TitleScene')`
with no data, which runs `TitleScene.init` with an empty payload. -/
def conclusionRestart (st : ClientState) : ClientState :=
  titleSceneInit { st with currentScene := "TitleScene" } none

/-- `TitleScene.showPromptScreen` from Title.ts: show the DOM prompt
screen, remove the localStorage copy and null the held game data. -/
def showPromptScreen (st : ClientState) : ClientState :=
  { st with promptVisible := true, localGameData := none, titleGameData := none }

/-- `TitleScene.restartGame` from Title.ts: just `showPromptScreen`. -/
def restartGame (st : ClientState) : ClientState :=
  showPromptScreen st

/-- The client state on a terminal (good_ending) conclusion scene with a
generated game held and stored. -/
def sampleTerminalState : ClientState :=
  { currentScene := "ConclusionScene"
    localGameData :=
      some (convertToSceneStructure sampleGameData
        "A brave knight explores a haunted forest")
    titleGameData :=
      some (convertToSceneStructure sampleGameData
        "A brave knight explores a haunted forest")
    promptVisible := false }

/-- C3 fails on the code: triggering restart from a terminal state (the
conclusion scene's Play Again button) does not clear the stored game data
— at this concrete state the localStorage copy survives the restart. -/
theorem c3_restart_counterexample :
    ¬ ((conclusionRestart sampleTerminalState).localGameData = none ∧
       (conclusionRestart sampleTerminalState).titleGameData = none) := by
  intro h
  have h1 := h.1
  simp [conclusionRestart, titleSceneInit, sampleTerminalState] at h1

/-- C3 amended: restart from a terminal state returns to the title scene
with the stored game data untouched; the held game data and its
localStorage copy are cleared, and the prompt screen shown for a fresh
generation, only when the title scene's restart action
(`restartGame`/`showPromptScreen`) is subsequently triggered. -/
theorem c3_restart_amended (st : ClientState) :
    (conclusionRestart st).currentScene = "TitleScene" ∧
    (conclusionRestart st).localGameData = st.localGameData ∧
    (restartGame (conclusionRestart st)).localGameData = none ∧
    (restartGame (conclusionRestart st)).titleGameData = none ∧
    (restartGame (conclusionRestart st)).promptVisible = true := by
  cases hl : st.localGameData <;>
    simp [conclusionRestart, titleSceneInit, restartGame, showPromptScreen, hl]

/-- Modelled from the spec: the backend image generator
(`backend/app/services/image_generator.py`) is not among the provided
sources; §3 of the spec defines a character archetype as an id, an ordered
palette of at most 8 colors, an outline color and an accessory shape. -/
structure CharacterArchetype where
  id : String
  palette : List Nat
  outlineColor : Nat
  accessoryShape : Nat
deriving DecidableEq, Repr

/-- Modelled from the spec: environment archetype of §3 — id, sky color,
ground color, feature color, feature density. -/
structure EnvironmentArchetype where
  id : String
  skyColor : Nat
  groundColor : Nat
  featureColor : Nat
  featureDensity : Nat
deriving DecidableEq, Repr

/-- Modelled from the spec: the color the archetype's ordered palette
assigns to a position (§4.2 "ordered palette positions"). -/
def paletteColor (a : CharacterArchetype) (i : Nat) : Nat :=
  a.palette.getD i a.outlineColor

/-- Modelled from the spec: the color of one pixel of the character
sprite. §4.2 fixes the geometry — filled rectangular regions drawn in a
fixed z-order (silhouette outline, then body block, then head block, then
accessory), every shape with a constant-width 2px outline — with no
randomness in geometry or color selection. Later layers overwrite earlier
ones, so the pixel takes the topmost region's color. -/
def characterPixel (a : CharacterArchetype) (x y : Nat) : Nat :=
  if 26 ≤ x && x ≤ 37 && 4 ≤ y && y < 10 then
    paletteColor a (a.accessoryShape % 8)
  else if 22 ≤ x && x ≤ 41 && 10 ≤ y && y ≤ 29 then
    (if x < 24 || x > 39 || y < 12 || y > 27 then a.outlineColor
     else paletteColor a 2)
  else if 20 ≤ x && x ≤ 43 && 30 ≤ y && y ≤ 53 then
    (if x < 22 || x > 41 || y < 32 || y > 51 then a.outlineColor
     else paletteColor a 1)
  else if 16 ≤ x && x ≤ 47 && 8 ≤ y && y ≤ 55 &&
       (x < 18 || x > 45 || y < 10 || y > 53) then
    a.outlineColor
  else
    0

/-- Modelled from the spec: `composeCharacter(archetype) -> PixelBuffer`
of §4.2, a fixed 64×64 grid of indexed colors — a pure function of the
archetype with no per-call randomness. -/
def composeCharacter (a : CharacterArchetype) : List (List Nat) :=
  (List.range 64).map fun y => (List.range 64).map fun x => characterPixel a x y

/-- Modelled from the spec: the color of one pixel of the background.
§4.3 partitions the canvas into horizontal bands (sky, mid-ground feature
band, ground) and scatters feature shapes at deterministic positions
within the feature band. -/
def backgroundPixel (e : EnvironmentArchetype) (x y : Nat) : Nat :=
  if y < 24 then e.skyColor
  else if y < 40 then
    (if (x * 7 + y * 13) % (e.featureDensity + 1) == 0 then e.featureColor
     else e.skyColor)
  else e.groundColor

/-- Modelled from the spec: `composeBackground(archetype) -> PixelBuffer`
of §4.3, a 64×64 grid with the same determinism contract as §4.2. -/
def composeBackground (e : EnvironmentArchetype) : List (List Nat) :=
  (List.range 64).map fun y => (List.range 64).map fun x => backgroundPixel e x y

/-- Modelled from the spec: one row nearest-neighbor-upscaled by factor
`k` (§4.4 — pixels replicated into blocks, never interpolated). -/
def upscaleRow (row : List Nat) (k : Nat) : List Nat :=
  (row.map fun p => List.replicate k p).flatten

/-- Modelled from the spec: nearest-neighbor upscaling of a whole buffer
by factor `k` (§4.4). -/
def upscaleNearest (buffer : List (List Nat)) (k : Nat) : List (List Nat) :=
  (buffer.map fun row => List.replicate k (upscaleRow row k)).flatten

/-- An exported image: the upscaled pixel buffer plus the generated
filename. -/
structure ExportedImage where
  pixels : List (List Nat)
  filename : String
deriving DecidableEq, Repr

/-- Modelled from the spec: `export(buffer, targetSize)` of §4.4 — the
buffer is nearest-neighbor upscaled and written under a unique filename
`<slot>_<unique-suffix>.png` (§6); the random per-call suffix is passed in
explicitly. -/
def exportImage (buffer : List (List Nat)) (slot suffix : String) :
    ExportedImage :=
  { pixels := upscaleNearest buffer 8
    filename := slot ++ "_" ++ suffix ++ ".png" }

/-- Modelled from the spec: one full `composeCharacter` call followed by
export; the only per-call input besides the archetype is the random
filename suffix. -/
def composeCharacterCall (a : CharacterArchetype) (suffix : String) :
    ExportedImage :=
  exportImage (composeCharacter a) "avatar" suffix

/-- Modelled from the spec: one full `composeBackground` call followed by
export. -/
def composeBackgroundCall (e : EnvironmentArchetype) (suffix : String) :
    ExportedImage :=
  exportImage (composeBackground e) "background" suffix

/-- C7: two calls with the same archetype produce byte-identical pixel
buffers whatever their random filename suffixes are — the pixels depend
only on the archetype — and only the exported filename varies: distinct
suffixes give distinct filenames. -/
theorem c7_compose_deterministic (a : CharacterArchetype)
    (e : EnvironmentArchetype) (s1 s2 : String) (hne : s1 ≠ s2) :
    (composeCharacterCall a s1).pixels = (composeCharacterCall a s2).pixels ∧
    (composeBackgroundCall e s1).pixels = (composeBackgroundCall e s2).pixels ∧
    (composeCharacterCall a s1).filename ≠ (composeCharacterCall a s2).filename ∧
    (composeBackgroundCall e s1).filename ≠ (composeBackgroundCall e s2).filename := by
  refine ⟨rfl, rfl, ?_, ?_⟩
  · intro heq
    have hd := congrArg String.data heq
    simp only [composeCharacterCall, exportImage, String.data_append,
      List.append_assoc] at hd
    exact hne (String.ext (List.append_cancel_right
      (List.append_cancel_left (List.append_cancel_left hd))))
  · intro heq
    have hd := congrArg String.data heq
    simp only [composeBackgroundCall, exportImage, String.data_append,
      List.append_assoc] at hd
    exact hne (String.ext (List.append_cancel_right
      (List.append_cancel_left (List.append_cancel_left hd))))

/-- Witness for `c7_compose_deterministic` at concrete inputs. -/
theorem c7_compose_witness :
    (composeCharacterCall
        { id := "knight", palette := [1, 2, 3, 4, 5, 6, 7, 8],
          outlineColor := 9, accessoryShape := 0 } "aaa").pixels =
      (composeCharacterCall
        { id := "knight", palette := [1, 2, 3, 4, 5, 6, 7, 8],
          outlineColor := 9, accessoryShape := 0 } "bbb").pixels :=
  (c7_compose_deterministic
    { id := "knight", palette := [1, 2, 3, 4, 5, 6, 7, 8],
      outlineColor := 9, accessoryShape := 0 }
    { id := "forest", skyColor := 10, groundColor := 11,
      featureColor := 12, featureDensity := 4 }
    "aaa" "bbb" (by decide)).1

/-- Witness for `c1_no_dangling_references` at a concrete input. -/
theorem c1_dangling_witness :
    "quest_start" ∈
      recordKeys (convertToSceneStructure sampleGameData "p").scene_dsl.scenes ∧
    ∃ s, recordGet (convertToSceneStructure sampleGameData "p").scene_dsl.scenes
        (convertToSceneStructure sampleGameData "p").scene_dsl.initial_scene =
      some s :=
  ⟨(c1_no_dangling_references sampleGameData "p").1 "avatar_creation" _ rfl
      "quest_start" (by simp [sceneRefs]),
   (c1_no_dangling_references sampleGameData "p").2.2.2.2.2 _
      ReachableScene.initial⟩
